import Mathlib

/-!
Verification of the multi-agent tool-invocation system (agents4impact).

This file shallowly embeds the Python source under `src/agents/` in Lean:

* `parseToolInvocation` — the tool-marker parser inside
  `BaseAgent.process_request` (src/agents/base_agent.py, lines 143-158);
* `formatToolResult` — the result formatter of the same method (lines 165-188);
* `findEventByName` — `TicketAgent._find_event_by_name`
  (src/agents/ticket_agent.py, lines 212-252);
* `ticketExecuteTool` — `TicketAgent.execute_tool` (lines 254-492),
  with the companion MCP service modelled as an oracle `Mcp` and every
  outbound MCP call recorded in a trace;
* `orchExecuteTool` / `orchestratorProcess` — `OrchestratorAgent`
  (src/agents/orchestrator.py), with remote agents modelled as an oracle;
* `oldExecuteTool` — the support-ticket variant
  (src/agents/ticket_agent_old.py), whose handlers reference names that the
  module never imports and an attribute that is never initialized; Python
  name/attribute resolution is modelled explicitly.

Modelling conventions: Python dicts with a known key set become structures
whose fields are `Option`-valued (`none` = key absent); Python truthiness of
`dict.get` results is made explicit; numbers arriving in external JSON are
modelled by their string renderings (`str(x)` and `format(x, ".2f")`) carried
as data; external services (MCP server, remote agents, `json.loads`,
`uuid`/`datetime` values) are oracle parameters.
-/

/-- Python `needle in hay` (substring containment) on character lists. -/
def subOf (needle : List Char) : List Char → Bool
  | [] => needle.isEmpty
  | c :: t => needle.isPrefixOf (c :: t) || subOf needle t

/-- Python `needle in hay` for strings. -/
def strIn (needle hay : String) : Bool := subOf needle.data hay.data

/-- Python `s.lower()` (ASCII as used by this repository). -/
def pyLower (s : String) : String := ⟨s.data.map Char.toLower⟩

/-- Python `s.strip()`. -/
def pyStrip (s : String) : String :=
  ⟨((s.data.dropWhile Char.isWhitespace).reverse.dropWhile Char.isWhitespace).reverse⟩

/-- Python `s.startswith(pre)`. -/
def pyStartsWith (pre s : String) : Bool := pre.data.isPrefixOf s.data

/-- Python `s.split(sep)` for a single-character separator, keeping empties. -/
def splitNl : List Char → List (List Char)
  | [] => [[]]
  | c :: t =>
    let r := splitNl t
    if c = '\n' then [] :: r
    else
      match r with
      | [] => [[c]]
      | h :: t2 => (c :: h) :: t2

/-- Worker for `dropSub`, structurally recursive on a fuel argument so that
the kernel can evaluate it; the scanned list shrinks at every step, so fuel
`cs.length + 1` is never exhausted and the `0` branch is unreachable. -/
def dropSubAux (pat : List Char) : Nat → List Char → List Char
  | 0, _ => []
  | _ + 1, [] => []
  | n + 1, c :: t =>
    if pat.isPrefixOf (c :: t) then dropSubAux pat n (t.drop (pat.length - 1))
    else c :: dropSubAux pat n t

/-- Python `s.replace(pat, "")`: delete every (left-to-right, non-overlapping)
occurrence of `pat`. -/
def dropSub (pat cs : List Char) : List Char :=
  dropSubAux pat (cs.length + 1) cs

/-- Python `sep.join(xs)`. -/
def joinSep (sep : String) : List String → String
  | [] => ""
  | [x] => x
  | x :: y :: xs => x ++ sep ++ joinSep sep (y :: xs)

/-- Truthiness of a `dict.get("...")` result holding a JSON boolean:
a missing key is `None`, hence falsy. -/
def truthy : Option Bool → Bool
  | some b => b
  | none => false

/-- Python falsiness of an optional string parameter (`not x`):
`None` and the empty string are falsy. -/
def falsyS : Option String → Bool
  | none => true
  | some s => s = ""

section Parser

/-- Stand-in for a parsed JSON object (`json.loads` result); the empty
object is `[]`. The JSON library itself is external, so parsing is an
oracle `String → Option Params` (`none` = `json.loads` raised). -/
abbrev Params := List (String × String)

/-- The structured tool call extracted from model output
(the ToolInvocation of the spec). -/
structure ToolInvocation where
  toolName : String
  parameters : Params
deriving DecidableEq, Repr

/-- `line.replace(marker, "").strip()` — how base_agent.py extracts the text
after a marker (lines 150 and 153). -/
def extractAfterMarker (marker line : String) : String :=
  pyStrip ⟨dropSub marker.data line.data⟩

/-- One iteration of the marker-scanning loop of
`BaseAgent.process_request` (base_agent.py lines 148-157): each
`USE_TOOL:` line overwrites the tool name, each `PARAMETERS:` line
overwrites the parameters (empty object when `json.loads` fails). -/
def scanStep (jp : String → Option Params) (acc : Option String × Params)
    (line : String) : Option String × Params :=
  if pyStartsWith "USE_TOOL:" line then
    (some (extractAfterMarker "USE_TOOL:" line), acc.2)
  else if pyStartsWith "PARAMETERS:" line then
    (acc.1,
      match jp (extractAfterMarker "PARAMETERS:" line) with
      | some p => p
      | none => [])
  else acc

/-- The whole scanning loop. -/
def scanLines (jp : String → Option Params) (lines : List String)
    (acc : Option String × Params) : Option String × Params :=
  lines.foldl (scanStep jp) acc

/-- The lines scanned by the parser: the stripped response text split on newline (base_agent.py line 144). -/
def linesOf (text : String) : List String :=
  (splitNl (pyStrip text).data).map fun cs => (⟨cs⟩ : String)

/-- The Model-Response Parser: the tool-call extraction of
`BaseAgent.process_request` (base_agent.py lines 143-159). Returns `none`
when the marker is absent or when the scanned tool name is empty/never set
(Python `if tool_name:`), in which case the model text is returned
unmodified by the caller. -/
def parseToolInvocation (jp : String → Option Params) (text : String) :
    Option ToolInvocation :=
  if strIn "USE_TOOL:" text then
    let res := scanLines jp (linesOf text) (none, [])
    match res.1 with
    | some n => if n = "" then none else some ⟨n, res.2⟩
    | none => none
  else none

end Parser

/-- The extraction from the last line carrying the given marker, if any. -/
def lastMarked (marker : String) (lines : List String) : Option String :=
  (lines.reverse.find? (pyStartsWith marker)).map (extractAfterMarker marker)

/-- An element of the event catalog of the companion service.  The ticket agent
indexes `id` and `name` directly (ticket_agent.py lines 222-228); the card
fields are read with tolerant `.get` by the base-agent formatter. -/
structure EventItem where
  id : String := ""
  name : String := ""
  date : Option String := none
  time : Option String := none
  venue : Option String := none
  priceUSDStr : Option String := none
  availableTicketsStr : Option String := none
  description : Option String := none
deriving DecidableEq, Repr

/-- The `similarity` helper of `TicketAgent._find_event_by_name`
(ticket_agent.py lines 231-237): fraction of positions where the two
(lowercased) strings coincide, normalized by the longer length. -/
def similarity (s1 s2 : String) : Rat :=
  let t1 := pyLower s1
  let t2 := pyLower s2
  let nMatch : Nat := (t1.data.zip t2.data).countP fun p => p.1 == p.2
  let maxLen : Nat := max t1.data.length t2.data.length
  if maxLen > 0 then mkRat nMatch maxLen else 0

/-- Score of one catalog entry against the (lowercased, stripped) query. -/
def evScore (enl : String) (ev : EventItem) : Rat :=
  similarity enl (pyLower ev.name)

/-- One step of the fuzzy-matching loop (ticket_agent.py lines 243-247):
strictly better scores replace the running best, so the first maximum wins. -/
def fuzzyStep (enl : String) (acc : Rat × Option String) (ev : EventItem) :
    Rat × Option String :=
  if evScore enl ev > acc.1 then (evScore enl ev, some ev.id) else acc

/-- Running maximum of the scores, seeded with the 0.7 threshold. -/
def fuzzyMax (enl : String) (evs : List EventItem) (b : Rat) : Rat :=
  evs.foldl (fun x ev => max x (evScore enl ev)) b

/-- `TicketAgent._find_event_by_name` on a candidate list
(ticket_agent.py lines 212-252): forward substring containment over all
candidates, then reverse containment, then the fuzzy loop with
threshold 0.7. -/
def findEventByName (eventName : String) (events : List EventItem) :
    Option String :=
  let enl := pyStrip (pyLower eventName)
  match events.find? (fun ev => strIn enl (pyLower ev.name)) with
  | some ev => some ev.id
  | none =>
    match events.find? (fun ev => strIn (pyLower ev.name) enl) with
    | some ev => some ev.id
    | none => (events.foldl (fuzzyStep enl) (mkRat 7 10, none)).2

/-- Declarative characterization of fuzzy event resolution (the amended C2
claim): first candidate whose lowercased name contains the query; else first
candidate whose name is contained in the query; else the first candidate
attaining the maximal similarity score provided that maximum strictly
exceeds 0.7; else no match. -/
def findEventByNameStaged (ref : String) (events : List EventItem) :
    Option String :=
  let enl := pyStrip (pyLower ref)
  match events.find? (fun ev => strIn enl (pyLower ev.name)) with
  | some ev => some ev.id
  | none =>
    match events.find? (fun ev => strIn (pyLower ev.name) enl) with
    | some ev => some ev.id
    | none =>
      if mkRat 7 10 < fuzzyMax enl events (mkRat 7 10) then
        (events.find? fun ev =>
            decide (evScore enl ev = fuzzyMax enl events (mkRat 7 10))).map
          fun ev => ev.id
      else none

/-- The `blockchain` sub-object of a PaymentIntent as read by the ticket
agent; `chainIdStr` carries the rendering of the JSON number `chainId`. -/
structure Blockchain where
  paymentAddress : Option String := none
  network : Option String := none
  chainIdStr : Option String := none
deriving DecidableEq, Repr

/-- A PaymentIntent object returned by the companion MCP service.
`amountStr` and `amount2f` carry the renderings `str(amount)` and
`format(amount, ".2f")` of the JSON number `amount`. -/
structure PaymentIntent where
  id : Option String := none
  amountStr : Option String := none
  amount2f : Option String := none
  blockchain : Option Blockchain := none
  expiresAt : Option String := none
deriving DecidableEq, Repr

/-- One remote-agent record of the orchestrator listing. -/
structure AgentEntry where
  key : String
  name : String
  url : String
  description : String
deriving DecidableEq, Repr

/-- A dict-valued payload as inspected by the base-agent formatter
(only the "events" key is interpreted; everything else is dumped). -/
structure Payload where
  events : Option (List EventItem) := none
deriving DecidableEq, Repr

/-- The value under the "result" key of a tool result: either a
pre-formatted string or a nested object. -/
inductive ResultVal where
  | str : String → ResultVal
  | obj : Payload → ResultVal
deriving DecidableEq, Repr

/-- A Python result dict as flowing between the tool executors, the MCP
service and the base-agent formatter.  A field holds `none` exactly when
the corresponding key is absent from the dict; string renderings stand in
for JSON numbers. -/
structure Envelope where
  success : Option Bool := none
  error : Option String := none
  result : Option ResultVal := none
  message : Option String := none
  response : Option String := none
  agent : Option String := none
  requiresPayment : Option Bool := none
  paymentIntent : Option PaymentIntent := none
  transactionHash : Option String := none
  explorerUrl : Option String := none
  events : Option (List EventItem) := none
  agents : Option (List AgentEntry) := none
  address : Option String := none
  balanceUSDC : Option String := none
  balanceETH : Option String := none
  network : Option String := none
  chainIdStr : Option String := none
  usdcContract : Option String := none
deriving DecidableEq, Repr

/-- The parameter dict of `TicketAgent.execute_tool`; `none` = key absent. -/
structure TParams where
  event_id : Option String := none
  quantity : Option Nat := none
  customer_email : Option String := none
  customer_name : Option String := none
  payment_intent_id : Option String := none
  to_address : Option String := none
  amount_usd : Option String := none
  memo : Option String := none
  category : Option String := none
  city : Option String := none
  status : Option String := none
deriving DecidableEq, Repr

/-- One outbound call from the ticket agent to the companion MCP service,
with the arguments actually sent (ticket_agent.py `_call_mcp` call sites). -/
inductive McpCall where
  | listEvents (p : TParams)
  | getEvent (eventId : Option String)
  | listVenues (p : TParams)
  | purchaseTickets (eventId : Option String) (quantity : Nat)
      (customerEmail customerName : String)
  | checkPaymentStatus (paymentIntentId : Option String)
  | getMyTickets (p : TParams)
  | getPendingPayment
  | sendPayment (toAddress amountUSD : Option String) (memo : String)
  | getBalance
deriving DecidableEq, Repr

/-- Oracle for the companion MCP service: the response each call would
produce.  `balance` covers the two `requests.get` wallet endpoints, with
`Except.error` modelling a raised transport fault (caught by the agent). -/
structure Mcp where
  listEvents : TParams → Envelope
  getEvent : Option String → Envelope
  listVenues : TParams → Envelope
  purchase : Option String → Nat → String → String → Envelope
  checkStatus : Option String → Envelope
  myTickets : TParams → Envelope
  pending : Envelope
  sendPay : Option String → Option String → String → Envelope
  balance : Except String Envelope

/-- `TicketAgent._find_event_by_name` including its own `list_events` MCP
fetch and the truthiness guard `result.get("success") and
result.get("events")` (an empty or absent list is falsy). -/
def findEventByNameMcp (mcp : Mcp) (eventName : String) :
    Option String × List McpCall :=
  let r := mcp.listEvents {}
  let res :=
    if truthy r.success then
      match r.events with
      | some evs => if evs.isEmpty then none else findEventByName eventName evs
      | none => none
    else none
  (res, [McpCall.listEvents {}])
/-- The payment-instruction message rendered by the purchase_tickets branch (ticket_agent.py lines 303-337); JSON numbers appear via their renderings str(x) / format(x, ".2f") carried in the model -/
def purchaseMessage (pi : PaymentIntent) : String :=
  "\n🎫 Ticket Reserved! USDC Payment Required\n\nYour tickets have been reserved. To complete your purchase:\n\n💵 Payment Amount: $" ++
  (pi.amount2f.getD "0.00") ++
  " USDC\n\n📬 Send USDC to this address on Base Sepolia:\n" ++
  ((pi.blockchain.getD {}).paymentAddress.getD "N/A") ++
  "\n\n🌐 Network: " ++
  ((pi.blockchain.getD {}).network.getD "Base Sepolia") ++
  "\n🔗 Chain ID: " ++
  ((pi.blockchain.getD {}).chainIdStr.getD "84532") ++
  "\n💎 Currency: USDC (Stablecoin - always $1)\n📄 USDC Contract: 0x036CbD53842c5426634e7929541eC2318f3dCF7e\n\n⏰ Expires: " ++
  (pi.expiresAt.getD "N/A") ++
  "\n🎟️ Payment Intent ID: " ++
  (pi.id.getD "N/A") ++
  "\n\n━━━━━━━━━━━━━━━━━━━━━━━━━━━━━━━━━━━━━━━━━━━━━━━━━━━━━━━━━━━━\n\n🤖 TO COMPLETE PAYMENT WITH AI AGENT:\n\nSimply say: \"Send $" ++
  (pi.amountStr.getD "0") ++
  " USDC to " ++
  ((pi.blockchain.getD {}).paymentAddress.getD "N/A") ++
  "\"\n\nOr just: \"Complete my payment\" or \"Send the payment\"\n\n━━━━━━━━━━━━━━━━━━━━━━━━━━━━━━━━━━━━━━━━━━━━━━━━━━━━━━━━━━━━\n\n📌 MANUAL PAYMENT:\n1. Send EXACTLY $" ++
  (pi.amount2f.getD "0.00") ++
  " USDC\n2. Send to the address above on Base Sepolia network\n3. Get Base Sepolia testnet USDC from: https://faucet.circle.com/\n\n✅ Your ticket will be automatically confirmed once the USDC transaction is detected!\n"

/-- The "no pending payments" message of the send_payment branch (ticket_agent.py lines 373-379). -/
def noPendingMsg : String :=
  "❌ No Pending Payments Found\n\nPlease purchase a ticket first, then I can complete the payment!\n\nOr provide the payment details explicitly like this:\n\"Send $1 USDC to 0x8af52793B08843D1D0f4ee36964fCe986e667836\"\n"

/-- The success message of the send_payment branch (ticket_agent.py lines 390-399); note it renders the original request parameters, not the values actually sent -/
def sendSuccessMsg (p : TParams) (r : Envelope) : String :=
  "\n✅ USDC Payment Sent Successfully!\n\n💵 Amount: $" ++
  (p.amount_usd.getD "None") ++
  " USDC\n📬 To: " ++
  (p.to_address.getD "None") ++
  "\n🔗 Transaction: " ++
  (r.transactionHash.getD "None") ++
  "\n🌐 View on Explorer: " ++
  (r.explorerUrl.getD "None") ++
  "\n\nYour USDC payment has been confirmed on Base Sepolia blockchain!\n"

/-- The wallet-balance message (ticket_agent.py lines 417-437) -/
def balanceMsg (r : Envelope) : String :=
  "\n💰 Agent Wallet Balance\n\n📬 Wallet Address: " ++
  (r.address.getD "None") ++
  "\n\n💵 USDC Balance: $" ++
  (r.balanceUSDC.getD "0.00") ++
  "\n⛽ ETH Balance (for gas): " ++
  (r.balanceETH.getD "0.0") ++
  " ETH\n\n🌐 Network: " ++
  (r.network.getD "None") ++
  "\n🔗 Chain ID: " ++
  (r.chainIdStr.getD "None") ++
  "\n💎 USDC Contract: " ++
  (r.usdcContract.getD "None") ++
  "\n\n━━━━━━━━━━━━━━━━━━━━━━━━━━━━━━━━━━━━━━━━━━━━━━━━━━━━━━━━━━━━\n\n💰 TO FUND THIS WALLET:\n\n1. Get testnet USDC: https://faucet.circle.com/\n2. Get testnet ETH (for gas): https://www.alchemy.com/faucets/base-sepolia\n\nSend to: " ++
  (r.address.getD "None") ++
  "\n"

/-- The wallet-address message (ticket_agent.py lines 454-481) -/
def walletAddrMsg (r : Envelope) : String :=
  "\n📬 Agent Wallet Address\n\n" ++
  (r.address.getD "None") ++
  "\n\n━━━━━━━━━━━━━━━━━━━━━━━━━━━━━━━━━━━━━━━━━━━━━━━━━━━━━━━━━━━━\n\n🌐 Network: Base Sepolia (Chain ID: " ++
  (r.chainIdStr.getD "84532") ++
  ")\n\n💰 TO FUND THIS WALLET:\n\n1️⃣ Get testnet USDC (for ticket payments):\n   https://faucet.circle.com/\n   \n   • Select \"Base Sepolia\" network\n   • Paste address: " ++
  (r.address.getD "None") ++
  "\n   • Request USDC tokens\n\n2️⃣ Get testnet ETH (for gas fees):\n   https://www.alchemy.com/faucets/base-sepolia\n   \n   • Enter address: " ++
  (r.address.getD "None") ++
  "\n   • Request ETH\n\n━━━━━━━━━━━━━━━━━━━━━━━━━━━━━━━━━━━━━━━━━━━━━━━━━━━━━━━━━━━━\n\n💡 After funding, check balance with: \"What\x27s your USDC balance?\"\n"

/-- The guard `if event_id and not event_id.startswith("event-")`
(ticket_agent.py lines 263 and 277). -/
def needsResolution : Option String → Bool
  | none => false
  | some eid => !(eid = "") && !(pyStartsWith "event-" eid)

/-- The tool names dispatched by `TicketAgent.execute_tool`. -/
def ticketToolNames : List String :=
  ["list_events", "get_event_details", "list_venues", "purchase_tickets",
   "check_payment_status", "get_my_tickets", "send_payment",
   "get_wallet_balance", "get_wallet_address"]

/-- The purchase_tickets branch of `TicketAgent.execute_tool`
(ticket_agent.py lines 272-344): optional fuzzy resolution of the event
reference, the MCP purchase call, and the payment-instruction rendering
when the response requires payment. -/
def purchaseTicketsTool (mcp : Mcp) (p : TParams) : Envelope × List McpCall :=
  let qty := p.quantity.getD 1
  let email := p.customer_email.getD "customer@example.com"
  let cname := p.customer_name.getD "Customer"
  let proceed : Option String → List McpCall → Envelope × List McpCall :=
    fun eid tr =>
      let r := mcp.purchase eid qty email cname
      let tr2 := tr ++ [McpCall.purchaseTickets eid qty email cname]
      if truthy r.requiresPayment then
        let intent := r.paymentIntent.getD {}
        ({ success := some true,
           result := some (ResultVal.str (purchaseMessage intent)),
           paymentIntent := some intent }, tr2)
      else (r, tr2)
  if needsResolution p.event_id then
    let f := findEventByNameMcp mcp (p.event_id.getD "")
    match f.1 with
    | some fid => proceed (some fid) f.2
    | none =>
      ({ success := some false,
         error := some ("Event \x27" ++ p.event_id.getD "" ++
           "\x27 not found. Please use one of: Summer Music Festival 2025, Tech Conference 2025, Rock Legends Concert, or Broadway Musical Night") },
       f.2)
  else proceed p.event_id []

/-- The send_payment branch of `TicketAgent.execute_tool`
(ticket_agent.py lines 354-403): when either the address or the amount is
missing (Python-falsy), both are refetched from the companion service via
a `get_pending_payment` call, and absent a pending intent the branch
returns the no-pending message without issuing any payment call. -/
def sendPaymentTool (mcp : Mcp) (p : TParams) : Envelope × List McpCall :=
  let memo := p.memo.getD ""
  let finish : Option String → Option String → List McpCall →
      Envelope × List McpCall :=
    fun toA amt tr =>
      let r := mcp.sendPay toA amt memo
      let r2 :=
        if truthy r.success then { r with message := some (sendSuccessMsg p r) }
        else
          { r with message := some ("❌ Payment failed: " ++
              (r.error.getD "Unknown error")) }
      (r2, tr ++ [McpCall.sendPayment toA amt memo])
  if falsyS p.to_address || falsyS p.amount_usd then
    let pr := mcp.pending
    if truthy pr.success && pr.paymentIntent.isSome then
      let intent := pr.paymentIntent.getD {}
      finish ((intent.blockchain.getD {}).paymentAddress)
        (some (intent.amountStr.getD "0")) [McpCall.getPendingPayment]
    else
      ({ success := some true, result := some (ResultVal.str noPendingMsg) },
       [McpCall.getPendingPayment])
  else finish p.to_address p.amount_usd []

/-- The get_wallet_balance branch (ticket_agent.py lines 405-440). -/
def walletBalanceTool (mcp : Mcp) : Envelope × List McpCall :=
  match mcp.balance with
  | Except.error e => ({ success := some false, error := some e }, [McpCall.getBalance])
  | Except.ok r =>
    if truthy r.success then
      ({ r with message := some (balanceMsg r) }, [McpCall.getBalance])
    else (r, [McpCall.getBalance])

/-- The get_wallet_address branch (ticket_agent.py lines 442-486). -/
def walletAddressTool (mcp : Mcp) : Envelope × List McpCall :=
  match mcp.balance with
  | Except.error e => ({ success := some false, error := some e }, [McpCall.getBalance])
  | Except.ok r =>
    if truthy r.success then
      ({ success := some true,
         result := some (ResultVal.str (walletAddrMsg r)) }, [McpCall.getBalance])
    else
      ({ success := some false,
         error := some "Could not retrieve wallet address" }, [McpCall.getBalance])

/-- `TicketAgent.execute_tool` (ticket_agent.py lines 254-492) against the
MCP oracle, returning the result envelope together with the trace of MCP
calls issued (in order, with the argument values actually sent). -/
def ticketExecuteTool (mcp : Mcp) (toolName : String) (p : TParams) :
    Envelope × List McpCall :=
  if toolName = "list_events" then
    (mcp.listEvents p, [McpCall.listEvents p])
  else if toolName = "get_event_details" then
    if needsResolution p.event_id then
      let f := findEventByNameMcp mcp (p.event_id.getD "")
      let eid :=
        match f.1 with
        | some fid => some fid
        | none => p.event_id
      (mcp.getEvent eid, f.2 ++ [McpCall.getEvent eid])
    else (mcp.getEvent p.event_id, [McpCall.getEvent p.event_id])
  else if toolName = "list_venues" then
    (mcp.listVenues p, [McpCall.listVenues p])
  else if toolName = "purchase_tickets" then
    purchaseTicketsTool mcp p
  else if toolName = "check_payment_status" then
    (mcp.checkStatus p.payment_intent_id,
     [McpCall.checkPaymentStatus p.payment_intent_id])
  else if toolName = "get_my_tickets" then
    (mcp.myTickets p, [McpCall.getMyTickets p])
  else if toolName = "send_payment" then
    sendPaymentTool mcp p
  else if toolName = "get_wallet_balance" then
    walletBalanceTool mcp
  else if toolName = "get_wallet_address" then
    walletAddressTool mcp
  else ({ error := some ("Unknown tool: " ++ toolName) }, [])

/-- The dict the formatter inspects for an "events" list: the value under
"result" if that key is present, else the tool result itself
(base_agent.py line 167: `result_data = tool_result.get("result", tool_result)`). -/
def payloadEvents (tr : Envelope) : Option (List EventItem) :=
  match tr.result with
  | some (ResultVal.str _) => none
  | some (ResultVal.obj pl) => pl.events
  | none => tr.events

/-- One event card of the base-agent formatter (base_agent.py lines 175-181);
an absent key renders as "None" through the f-string. -/
def eventCardStr (e : EventItem) : String :=
  "🎫 **" ++ e.name ++ "**\n" ++
  "📅 " ++ (e.date.getD "None") ++ " at " ++ (e.time.getD "None") ++ "\n" ++
  "📍 " ++ (e.venue.getD "None") ++ "\n" ++
  "💵 $" ++ (e.priceUSDStr.getD "None") ++ " USDC\n" ++
  "🎟️ " ++ (e.availableTicketsStr.getD "None") ++ " tickets available\n" ++
  "ℹ️ " ++ (e.description.getD "None")

/-- The result formatter of `BaseAgent.process_request`
(base_agent.py lines 165-188).  `dumps` is the external
`json.dumps(..., indent=2)` used for payloads with no "events" list. -/
def formatToolResult (dumps : Payload → String) (tr : Envelope) : String :=
  if truthy tr.success then
    match (match tr.result with
           | some v => v
           | none => ResultVal.obj ⟨tr.events⟩) with
    | ResultVal.str s => s
    | ResultVal.obj pl =>
      match pl.events with
      | some evs =>
        "Here are the available events:\n\n" ++
          joinSep "\n\n" ((evs.take 10).map eventCardStr)
      | none => dumps pl
  else "Error: " ++ (tr.error.getD "Unknown error")

/-- Default agent ports from config.py (`BIGQUERY_AGENT_PORT` etc., the
values used when the environment does not override them). -/
def bigqueryAgentPort : Nat := 8001

def ticketAgentPort : Nat := 8002

def mapsAgentPort : Nat := 8003

/-- `OrchestratorAgent.remote_agents` (orchestrator.py lines 43-59), in
dict insertion order. -/
def remoteAgents : List AgentEntry :=
  [⟨"bigquery", "BigQuery Agent", "http://localhost:" ++ toString bigqueryAgentPort,
    "Handles BigQuery data queries and analysis"⟩,
   ⟨"ticket", "Ticket Agent", "http://localhost:" ++ toString ticketAgentPort,
    "Sells event tickets (concerts, shows, venues) with USDC blockchain payments on Base Sepolia"⟩,
   ⟨"maps", "Maps Agent", "http://localhost:" ++ toString mapsAgentPort,
    "Provides geospatial information and maps"⟩]

/-- `OrchestratorAgent._list_available_agents` (orchestrator.py lines 178-191). -/
def listAvailableAgents : Envelope :=
  { success := some true, agents := some remoteAgents }

/-- The tool names dispatched by `OrchestratorAgent.execute_tool`. -/
def orchToolNames : List String :=
  ["route_to_bigquery_agent", "route_to_ticket_agent", "route_to_maps_agent",
   "list_available_agents"]

/-- `OrchestratorAgent.execute_tool` (orchestrator.py lines 113-132) with
`_route_to_agent` as an oracle; a missing "request" key raises a KeyError
whose rendering is caught by the outer handler. -/
def orchExecuteTool (route : String → String → Envelope) (toolName : String)
    (request : Option String) : Envelope :=
  if toolName = "route_to_bigquery_agent" then
    match request with
    | some r => route "bigquery" r
    | none => { error := some "\x27request\x27" }
  else if toolName = "route_to_ticket_agent" then
    match request with
    | some r => route "ticket" r
    | none => { error := some "\x27request\x27" }
  else if toolName = "route_to_maps_agent" then
    match request with
    | some r => route "maps" r
    | none => { error := some "\x27request\x27" }
  else if toolName = "list_available_agents" then listAvailableAgents
  else { error := some ("Unknown tool: " ++ toolName) }

/-- The ticket keyword set (orchestrator.py line 210). -/
def ticketKeywords : List String :=
  ["ticket", "event", "concert", "show", "venue", "buy", "purchase",
   "available", "festival", "performance", "payment", "pay", "send", "usdc",
   "balance", "wallet", "complete", "transaction", "address", "fund"]

/-- The BigQuery keyword set (orchestrator.py line 219). -/
def bigqueryKeywords : List String :=
  ["query", "data", "bigquery", "sql", "database", "table", "analyze"]

/-- The maps keyword set (orchestrator.py line 228). -/
def mapsKeywords : List String :=
  ["map", "location", "directions", "geocode", "address", "navigation", "route"]

/-- `any(keyword in message_lower for keyword in kws)`. -/
def hasKeyword (kws : List String) (msgLower : String) : Bool :=
  kws.any fun k => strIn k msgLower

/-- The per-branch relay of a routed reply (orchestrator.py lines 213-216
and analogues): the response of the agent on success, an "Error: ..." string
otherwise. -/
def relayReply (defaultMsg : String) (r : Envelope) : String :=
  if truthy r.success then r.response.getD defaultMsg
  else "Error: " ++ (r.error.getD "Unknown error")

/-- The static capability listing returned when no keyword matches
(orchestrator.py lines 237-247). -/
def fallbackListing : String :=
  "I can help you with 3 specialized agents:\n\n" ++
  joinSep "\n" (remoteAgents.map fun a => "• " ++ a.name ++ ": " ++ a.description) ++
  "\n\nWhat would you like to do?"

/-- `OrchestratorAgent.process_request` (orchestrator.py lines 193-250):
ordered first-match keyword routing over the lowercased message, with
`_route_to_agent` as an oracle. -/
def orchestratorProcess (route : String → String → Envelope) (msg : String) :
    String :=
  let ml := pyLower msg
  if hasKeyword ticketKeywords ml then
    relayReply "No response from Ticket Agent" (route "ticket" msg)
  else if hasKeyword bigqueryKeywords ml then
    relayReply "No response from BigQuery Agent" (route "bigquery" msg)
  else if hasKeyword mapsKeywords ml then
    relayReply "No response from Maps Agent" (route "maps" msg)
  else fallbackListing

/-- Names defined at module level in ticket_agent_old.py (its imports and
top-level bindings); `uuid` and `datetime` are notably absent. -/
def oldModuleNames : List String :=
  ["os", "requests", "BaseAgent", "Config", "Any", "Dict", "List", "TicketAgent"]

/-- Instance attributes set on the old TicketAgent by the time
`execute_tool` runs (`BaseAgent.__init__` plus its own `__init__`);
`tickets` is never among them. -/
def oldInstanceAttrs : List String :=
  ["name", "description", "instructions", "model_name", "client",
   "mcp_server_url"]

/-- Python global-name resolution: a missing name raises
`NameError("name \x27...\x27 is not defined")`. -/
def lookupGlobal (n : String) : Except String Unit :=
  if oldModuleNames.contains n then Except.ok ()
  else Except.error ("name \x27" ++ n ++ "\x27 is not defined")

/-- Python attribute resolution on the old TicketAgent: a missing attribute
raises `AttributeError`. -/
def lookupAttr (n : String) : Except String Unit :=
  if oldInstanceAttrs.contains n then Except.ok ()
  else Except.error ("\x27TicketAgent\x27 object has no attribute \x27" ++ n ++ "\x27")

/-- The parameter dict of `execute_tool` in the old variant. -/
structure OldParams where
  title : Option String := none
  description : Option String := none
  category : Option String := none
  priority : Option String := none
  assignee : Option String := none
  ticket_id : Option String := none
  status : Option String := none
  note : Option String := none
deriving DecidableEq, Repr

/-- A stored support ticket of the old variant (notes are
(timestamp, text) pairs). -/
structure OldTicket where
  ticket_id : String
  title : String
  description : String
  category : String
  priority : String
  assignee : String
  status : String
  created_at : String
  updated_at : String
  notes : List (String × String)
deriving DecidableEq, Repr

/-- The in-memory ticket store (`self.tickets`), as a keyed list. -/
abbrev OldStore := List (String × OldTicket)

/-- A result dict of the tools of the old variant. -/
structure OldEnvelope where
  success : Option Bool := none
  error : Option String := none
  ticket_id : Option String := none
  message : Option String := none
  ticket : Option OldTicket := none
  count : Option Nat := none
  tickets : Option (List OldTicket) := none
deriving DecidableEq, Repr

/-- `params[key]` for a required key: a missing key raises `KeyError`,
whose `str` is the quoted key name. -/
def reqParam (v : Option String) (key : String) : Except String String :=
  match v with
  | some s => Except.ok s
  | none => Except.error ("\x27" ++ key ++ "\x27")

/-- `TicketAgent._create_ticket` of ticket_agent_old.py (lines 162-187).
Its first statement evaluates `uuid.uuid4()`, and `uuid` is not a defined
name; `uuidPart` and `nowIso` model the values those helpers would
produce were they importable.  The store (`self.tickets`) is `none` when
the attribute was never set. -/
def oldCreateTicket (uuidPart nowIso : String) (p : OldParams)
    (store : Option OldStore) : Except String (OldEnvelope × Option OldStore) := do
  let _ ← lookupGlobal "uuid"
  let ticketId := "TICKET-" ++ uuidPart
  let _ ← lookupGlobal "datetime"
  let timestamp := nowIso
  let title ← reqParam p.title "title"
  let descr ← reqParam p.description "description"
  let cat ← reqParam p.category "category"
  let prty ← reqParam p.priority "priority"
  let t : OldTicket :=
    { ticket_id := ticketId, title := title, description := descr,
      category := cat, priority := prty,
      assignee := p.assignee.getD "unassigned", status := "open",
      created_at := timestamp, updated_at := timestamp, notes := [] }
  match store with
  | none => Except.error ("\x27TicketAgent\x27 object has no attribute \x27tickets\x27")
  | some s =>
    Except.ok
      ({ success := some true, ticket_id := some ticketId,
         message := some ("Ticket " ++ ticketId ++ " created successfully"),
         ticket := some t }, some (s ++ [(ticketId, t)]))

/-- `TicketAgent._update_ticket` of ticket_agent_old.py (lines 189-213);
`self.tickets` is dereferenced before anything else, and `datetime` is
needed for the note timestamp and `updated_at`. -/
def oldUpdateTicket (nowIso tid : String) (p : OldParams)
    (store : Option OldStore) : Except String (OldEnvelope × Option OldStore) := do
  match store with
  | none => Except.error ("\x27TicketAgent\x27 object has no attribute \x27tickets\x27")
  | some s =>
    match s.find? fun kv => kv.1 = tid with
    | none =>
      Except.ok
        ({ success := some false,
           error := some ("Ticket " ++ tid ++ " not found") }, some s)
    | some kv => do
      let t0 := kv.2
      let t1 := match p.status with
        | some st => { t0 with status := st }
        | none => t0
      let t2 ←
        match p.note with
        | some nt => do
          let _ ← lookupGlobal "datetime"
          pure { t1 with notes := t1.notes ++ [(nowIso, nt)] }
        | none => pure t1
      let _ ← lookupGlobal "datetime"
      let t3 := { t2 with updated_at := nowIso }
      Except.ok
        ({ success := some true, ticket_id := some tid,
           message := some ("Ticket " ++ tid ++ " updated successfully"),
           ticket := some t3 },
         some (s.map fun kv2 => if kv2.1 = tid then (tid, t3) else kv2))

/-- `TicketAgent._get_ticket` of ticket_agent_old.py (lines 215-220). -/
def oldGetTicket (tid : String) (store : Option OldStore) :
    Except String (OldEnvelope × Option OldStore) := do
  match store with
  | none => Except.error ("\x27TicketAgent\x27 object has no attribute \x27tickets\x27")
  | some s =>
    match s.find? fun kv => kv.1 = tid with
    | none =>
      Except.ok
        ({ success := some false,
           error := some ("Ticket " ++ tid ++ " not found") }, some s)
    | some kv => Except.ok ({ success := some true, ticket := some kv.2 }, some s)

/-- The per-ticket filter of `_search_tickets` (the filterable keys of the
ticket dict carried by this model). -/
def oldTicketMatches (f : OldParams) (t : OldTicket) : Bool :=
  (match f.status with | some v => t.status = v | none => true) &&
  (match f.category with | some v => t.category = v | none => true) &&
  (match f.priority with | some v => t.priority = v | none => true) &&
  (match f.assignee with | some v => t.assignee = v | none => true)

/-- `TicketAgent._search_tickets` of ticket_agent_old.py (lines 222-237). -/
def oldSearchTickets (p : OldParams) (store : Option OldStore) :
    Except String (OldEnvelope × Option OldStore) := do
  match store with
  | none => Except.error ("\x27TicketAgent\x27 object has no attribute \x27tickets\x27")
  | some s =>
    let results := (s.map fun kv => kv.2).filter (oldTicketMatches p)
    Except.ok
      ({ success := some true, count := some results.length,
         tickets := some results }, some s)

/-- `TicketAgent._list_all_tickets` of ticket_agent_old.py (lines 239-245). -/
def oldListAllTickets (store : Option OldStore) :
    Except String (OldEnvelope × Option OldStore) := do
  match store with
  | none => Except.error ("\x27TicketAgent\x27 object has no attribute \x27tickets\x27")
  | some s =>
    Except.ok
      ({ success := some true, count := some s.length,
         tickets := some (s.map fun kv => kv.2) }, some s)

/-- `TicketAgent.execute_tool` of ticket_agent_old.py (lines 138-160): each
handler runs under the `try`, and any raised fault is converted to
`{"error": str(e)}` with the store left as it was. -/
def oldExecuteTool (uuidPart nowIso : String) (toolName : String)
    (p : OldParams) (store : Option OldStore) : OldEnvelope × Option OldStore :=
  let run : Except String (OldEnvelope × Option OldStore) →
      OldEnvelope × Option OldStore := fun r =>
    match r with
    | Except.ok v => v
    | Except.error e => ({ error := some e }, store)
  if toolName = "create_ticket" then run (oldCreateTicket uuidPart nowIso p store)
  else if toolName = "update_ticket" then
    run (do
      let tid ← reqParam p.ticket_id "ticket_id"
      oldUpdateTicket nowIso tid p store)
  else if toolName = "get_ticket" then
    run (do
      let tid ← reqParam p.ticket_id "ticket_id"
      oldGetTicket tid store)
  else if toolName = "search_tickets" then run (oldSearchTickets p store)
  else if toolName = "list_all_tickets" then run (oldListAllTickets store)
  else ({ error := some ("Unknown tool: " ++ toolName) }, store)

/-- A successful result carrying fifteen events. -/
def envFifteen : Envelope :=
  { success := some true, events := some (List.replicate 15 ({} : EventItem)) }

/-- A trivial MCP oracle (all responses empty). -/
def mcpConst : Mcp :=
  { listEvents := fun _ => {},
    getEvent := fun _ => {},
    listVenues := fun _ => {},
    purchase := fun _ _ _ _ => {},
    checkStatus := fun _ => {},
    myTickets := fun _ => {},
    pending := {},
    sendPay := fun _ _ _ => {},
    balance := Except.ok {} }

/-- A reservation PaymentIntent paying to address 0xAAA. -/
def intentA : PaymentIntent :=
  { amountStr := some "7", blockchain := some { paymentAddress := some "0xAAA" } }

/-- A pending PaymentIntent paying to address 0xCCC, as reported by the
companion service. -/
def intentC : PaymentIntent :=
  { amountStr := some "5", blockchain := some { paymentAddress := some "0xCCC" } }

/-- An MCP oracle whose purchase response reserves with address 0xAAA while
its pending-payment endpoint reports address 0xCCC. -/
def mcpA : Mcp :=
  { mcpConst with
    purchase := fun _ _ _ _ =>
      { requiresPayment := some true, paymentIntent := some intentA },
    pending := { success := some true, paymentIntent := some intentC },
    sendPay := fun _ _ _ => { success := some true } }


theorem isPrefixOf_head {a b : Char} {p q s : List Char}
    (hp : (a :: p).isPrefixOf s = true) (hq : (b :: q).isPrefixOf s = true) : a = b := by
  cases s with
  | nil => simp [List.isPrefixOf] at hp
  | cons c t =>
    simp [List.isPrefixOf] at hp hq
    rw [hp.1, hq.1]

theorem not_both_markers (l : String) (h : pyStartsWith "USE_TOOL:" l = true) :
    pyStartsWith "PARAMETERS:" l = false := by
  by_contra hq
  rw [Bool.not_eq_false] at hq
  have h1 : ('U' :: "SE_TOOL:".data).isPrefixOf l.data = true := h
  have h2 : ('P' :: "ARAMETERS:".data).isPrefixOf l.data = true := hq
  exact absurd (isPrefixOf_head h1 h2) (by decide)

theorem scanLines_fst (jp : String → Option Params) (lines : List String)
    (acc : Option String × Params) :
    (scanLines jp lines acc).1 = (lastMarked "USE_TOOL:" lines).or acc.1 := by
  induction lines generalizing acc with
  | nil => simp [scanLines, lastMarked]
  | cons l ls ih =>
    have hstep : scanLines jp (l :: ls) acc = scanLines jp ls (scanStep jp acc l) := rfl
    rw [hstep, ih]
    by_cases hU : pyStartsWith "USE_TOOL:" l <;>
      by_cases hP : pyStartsWith "PARAMETERS:" l <;>
      cases hfind : (ls.reverse.find? (pyStartsWith "USE_TOOL:")) <;>
        simp [lastMarked, hfind, List.find?_append, List.find?, hU, hP, scanStep, Option.or]

theorem scanLines_snd (jp : String → Option Params) (lines : List String)
    (acc : Option String × Params) :
    (scanLines jp lines acc).2 =
      match lines.reverse.find? (pyStartsWith "PARAMETERS:") with
      | some l => (jp (extractAfterMarker "PARAMETERS:" l)).getD []
      | none => acc.2 := by
  induction lines generalizing acc with
  | nil => simp [scanLines]
  | cons l ls ih =>
    have hstep : scanLines jp (l :: ls) acc = scanLines jp ls (scanStep jp acc l) := rfl
    rw [hstep, ih]
    by_cases hU : pyStartsWith "USE_TOOL:" l
    · have hP := not_both_markers l hU
      cases hfind : (ls.reverse.find? (pyStartsWith "PARAMETERS:")) <;>
        simp [hfind, List.find?_append, List.find?, hU, hP, scanStep, Option.or]
    · by_cases hP : pyStartsWith "PARAMETERS:" l <;>
        cases hfind : (ls.reverse.find? (pyStartsWith "PARAMETERS:")) <;>
        cases hj : jp (extractAfterMarker "PARAMETERS:" l) <;>
          simp [hfind, List.find?_append, List.find?, hU, hP, scanStep, Option.or, hj]

/-- Claim C1, counterexample: the Model-Response Parser does not honor the
first occurrence of the tool marker.  On a response whose first marker line
names tool alpha and whose second names tool beta, parsing yields beta, the
name extracted from the last marker line, not alpha from the first. -/
theorem c1_first_marker_refuted :
    parseToolInvocation (fun _ => none) "USE_TOOL: alpha\nUSE_TOOL: beta" =
      some ⟨"beta", []⟩ ∧
    (linesOf "USE_TOOL: alpha\nUSE_TOOL: beta").find? (pyStartsWith "USE_TOOL:") =
      some "USE_TOOL: alpha" ∧
    extractAfterMarker "USE_TOOL:" "USE_TOOL: alpha" = "alpha" ∧
    ("beta" : String) ≠ "alpha" :=
  ⟨by decide, by decide, by decide, by decide⟩

/-- Claim C1, amended: for every model response containing the tool marker,
the extracted tool name comes from the last line starting with USE_TOOL:
and the parameters from the last line starting with PARAMETERS: (each later
occurrence overwrites the earlier ones); an empty extracted name yields no
invocation. -/
theorem c1_last_marker_wins (jp : String → Option Params) (text : String)
    (h : strIn "USE_TOOL:" text = true) :
    parseToolInvocation jp text =
      match lastMarked "USE_TOOL:" (linesOf text) with
      | some n =>
        if n = "" then none
        else
          some ⟨n,
            match (linesOf text).reverse.find? (pyStartsWith "PARAMETERS:") with
            | some l => (jp (extractAfterMarker "PARAMETERS:" l)).getD []
            | none => []⟩
      | none => none := by
  simp only [parseToolInvocation, if_pos h]
  rw [scanLines_fst, scanLines_snd]
  cases hA : lastMarked "USE_TOOL:" (linesOf text) <;>
    cases hB : (linesOf text).reverse.find? (pyStartsWith "PARAMETERS:") <;>
      simp [hA, hB, Option.or]

theorem c1_last_marker_wins_witness :
    strIn "USE_TOOL:" "USE_TOOL: a\nPARAMETERS: x\nUSE_TOOL: b" = true ∧
    parseToolInvocation (fun _ => none) "USE_TOOL: a\nPARAMETERS: x\nUSE_TOOL: b" =
      match lastMarked "USE_TOOL:" (linesOf "USE_TOOL: a\nPARAMETERS: x\nUSE_TOOL: b") with
      | some n =>
        if n = "" then none
        else
          some ⟨n,
            match (linesOf "USE_TOOL: a\nPARAMETERS: x\nUSE_TOOL: b").reverse.find?
                (pyStartsWith "PARAMETERS:") with
            | some l => ((fun (_ : String) => (none : Option Params)) (extractAfterMarker "PARAMETERS:" l)).getD []
            | none => []⟩
      | none => none :=
  ⟨by decide, c1_last_marker_wins (fun _ => none) _ (by decide)⟩

/-- Claim C5: when the tool marker is present and the PARAMETERS line does
not parse as JSON (the json.loads oracle returns none), parsing returns a
ToolInvocation with the extracted tool name and empty parameters.  The
embedding is a total function, so no exception can escape (the Python code
reaches the same totality through its bare except). -/
theorem c5_bad_json_gives_empty_params (jp : String → Option Params)
    (text lU lP : String)
    (hm : strIn "USE_TOOL:" text = true)
    (hU : (linesOf text).reverse.find? (pyStartsWith "USE_TOOL:") = some lU)
    (hP : (linesOf text).reverse.find? (pyStartsWith "PARAMETERS:") = some lP)
    (hjson : jp (extractAfterMarker "PARAMETERS:" lP) = none)
    (hname : extractAfterMarker "USE_TOOL:" lU ≠ "") :
    parseToolInvocation jp text = some ⟨extractAfterMarker "USE_TOOL:" lU, []⟩ := by
  simp only [parseToolInvocation, if_pos hm]
  rw [scanLines_fst, scanLines_snd]
  unfold lastMarked
  rw [hU, hP]
  simp [hname, Option.or, hjson]

theorem c5_bad_json_gives_empty_params_witness :
    strIn "USE_TOOL:" "USE_TOOL: foo\nPARAMETERS: \x7bbad" = true ∧
    (linesOf "USE_TOOL: foo\nPARAMETERS: \x7bbad").reverse.find?
        (pyStartsWith "USE_TOOL:") = some "USE_TOOL: foo" ∧
    (linesOf "USE_TOOL: foo\nPARAMETERS: \x7bbad").reverse.find?
        (pyStartsWith "PARAMETERS:") = some "PARAMETERS: \x7bbad" ∧
    parseToolInvocation (fun _ => none) "USE_TOOL: foo\nPARAMETERS: \x7bbad" =
      some ⟨extractAfterMarker "USE_TOOL:" "USE_TOOL: foo", []⟩ :=
  ⟨by decide, by decide, by decide,
    c5_bad_json_gives_empty_params (fun _ => none)
      "USE_TOOL: foo\nPARAMETERS: \x7bbad" "USE_TOOL: foo" "PARAMETERS: \x7bbad"
      (by decide) (by decide) (by decide) (by decide) (by decide)⟩

theorem seed_le_fuzzyMax (enl : String) (evs : List EventItem) (b : Rat) :
    b ≤ fuzzyMax enl evs b := by
  induction evs generalizing b with
  | nil => simp [fuzzyMax]
  | cons ev evs ih =>
    have h1 : b ≤ max b (evScore enl ev) := le_max_left _ _
    exact le_trans h1 (ih (max b (evScore enl ev)))

theorem fuzzyMax_le (enl : String) (evs : List EventItem) (b c : Rat)
    (hb : b ≤ c) (h : ∀ ev ∈ evs, evScore enl ev ≤ c) :
    fuzzyMax enl evs b ≤ c := by
  induction evs generalizing b with
  | nil => simpa [fuzzyMax] using hb
  | cons ev evs ih =>
    have h1 : max b (evScore enl ev) ≤ c :=
      max_le hb (h ev (List.mem_cons_self ev evs))
    exact ih (max b (evScore enl ev)) h1 fun e he => h e (List.mem_cons_of_mem _ he)

/-- The fuzzy loop selects the first entry attaining the running maximum,
provided the maximum strictly exceeds the seed. -/
theorem fuzzy_foldl_eq (enl : String) (evs : List EventItem) (b : Rat)
    (o : Option String) :
    evs.foldl (fuzzyStep enl) (b, o) =
      (fuzzyMax enl evs b,
        if b < fuzzyMax enl evs b then
          (evs.find? fun ev => decide (evScore enl ev = fuzzyMax enl evs b)).map
            fun ev => ev.id
        else o) := by
  induction evs generalizing b o with
  | nil => simp [fuzzyMax]
  | cons ev evs ih =>
    have hM : fuzzyMax enl (ev :: evs) b = fuzzyMax enl evs (max b (evScore enl ev)) := rfl
    have hfold : (ev :: evs).foldl (fuzzyStep enl) (b, o) =
        evs.foldl (fuzzyStep enl) (fuzzyStep enl (b, o) ev) := rfl
    rw [hfold, hM]
    by_cases hs : evScore enl ev > b
    · have hstep : fuzzyStep enl (b, o) ev = (evScore enl ev, some ev.id) := by
        simp [fuzzyStep, hs]
      have hmax : max b (evScore enl ev) = evScore enl ev := max_eq_right (le_of_lt hs)
      rw [hstep, ih, hmax]
      have hle : evScore enl ev ≤ fuzzyMax enl evs (evScore enl ev) :=
        seed_le_fuzzyMax enl evs _
      have hb : b < fuzzyMax enl evs (evScore enl ev) := lt_of_lt_of_le hs hle
      rw [if_pos hb]
      by_cases heq : evScore enl ev = fuzzyMax enl evs (evScore enl ev)
      · have hnl : ¬ evScore enl ev < fuzzyMax enl evs (evScore enl ev) := by
          rw [← heq]; exact lt_irrefl _
        rw [if_neg hnl]
        have hfind : List.find?
            (fun e => decide (evScore enl e = fuzzyMax enl evs (evScore enl ev)))
            (ev :: evs) = some ev := List.find?_cons_of_pos _ (decide_eq_true heq)
        rw [hfind]
        simp
      · have hlt : evScore enl ev < fuzzyMax enl evs (evScore enl ev) :=
          lt_of_le_of_ne hle heq
        rw [if_pos hlt]
        have hfind : List.find?
            (fun e => decide (evScore enl e = fuzzyMax enl evs (evScore enl ev)))
            (ev :: evs) =
            List.find?
              (fun e => decide (evScore enl e = fuzzyMax enl evs (evScore enl ev)))
              evs := List.find?_cons_of_neg _ (by simpa using heq)
        rw [hfind]
    · have hstep : fuzzyStep enl (b, o) ev = (b, o) := by
        simp [fuzzyStep, hs]
      have hmax : max b (evScore enl ev) = b := max_eq_left (le_of_not_lt hs)
      rw [hstep, ih, hmax]
      by_cases hb : b < fuzzyMax enl evs b
      · rw [if_pos hb, if_pos hb]
        have hne : ¬ evScore enl ev = fuzzyMax enl evs b := by
          intro he
          have hslt : evScore enl ev < fuzzyMax enl evs b :=
            lt_of_le_of_lt (le_of_not_lt hs) hb
          rw [he] at hslt
          exact lt_irrefl _ hslt
        have hfind : List.find?
            (fun e => decide (evScore enl e = fuzzyMax enl evs b)) (ev :: evs) =
            List.find? (fun e => decide (evScore enl e = fuzzyMax enl evs b)) evs :=
          List.find?_cons_of_neg _ (by simpa using hne)
        rw [hfind]
      · rw [if_neg hb, if_neg hb]

/-- Claim C2, counterexample: fuzzy event resolution does not return the
first candidate related by substring containment in either direction.  For
reference Rock against the catalog [Ro, Rockfest], the first candidate Ro
is containment-related (its name is contained in the reference), yet the
code returns event-2 (Rockfest), because forward containment is checked
against every candidate before reverse containment is tried at all. -/
theorem c2_first_either_direction_refuted :
    findEventByName "Rock" [⟨"event-1", "Ro", none, none, none, none, none, none⟩,
        ⟨"event-2", "Rockfest", none, none, none, none, none, none⟩] =
      some "event-2" ∧
    (strIn (pyStrip (pyLower "Rock")) (pyLower "Ro") ||
      strIn (pyLower "Ro") (pyStrip (pyLower "Rock"))) = true ∧
    some "event-2" ≠ some "event-1" :=
  ⟨by decide, by decide, by decide⟩

/-- Claim C2, amended: resolution returns the first candidate whose
lowercased name contains the reference; otherwise the first candidate whose
name is contained in the reference; otherwise the first candidate attaining
the maximal character-position similarity score provided that maximum
strictly exceeds 0.7 (ties broken by catalog order); otherwise no match —
in particular a reference below the threshold against all candidates, with
no containment either way, yields no match regardless of catalog size. -/
theorem c2_staged_fuzzy_resolution (ref : String) (events : List EventItem) :
    findEventByName ref events = findEventByNameStaged ref events ∧
    ((events.all fun ev =>
        !(strIn (pyStrip (pyLower ref)) (pyLower ev.name)) &&
        !(strIn (pyLower ev.name) (pyStrip (pyLower ref))) &&
        decide (evScore (pyStrip (pyLower ref)) ev ≤ mkRat 7 10)) = true →
      findEventByName ref events = none) := by
  constructor
  · simp only [findEventByName, findEventByNameStaged]
    rw [fuzzy_foldl_eq]
  · intro hall
    simp only [List.all_eq_true, Bool.and_eq_true, Bool.not_eq_true',
      decide_eq_true_eq] at hall
    simp only [findEventByName]
    rw [fuzzy_foldl_eq]
    have h1 : (events.find? fun ev =>
        strIn (pyStrip (pyLower ref)) (pyLower ev.name)) = none :=
      List.find?_eq_none.mpr fun ev hev => by simp [(hall ev hev).1.1]
    have h2 : (events.find? fun ev =>
        strIn (pyLower ev.name) (pyStrip (pyLower ref))) = none :=
      List.find?_eq_none.mpr fun ev hev => by simp [(hall ev hev).1.2]
    have h3 : fuzzyMax (pyStrip (pyLower ref)) events (mkRat 7 10) ≤ mkRat 7 10 :=
      fuzzyMax_le _ _ _ _ le_rfl fun ev hev => (hall ev hev).2
    rw [h1, h2]
    simp [not_lt_of_le h3]

theorem c2_staged_fuzzy_resolution_witness :
    (([⟨"event-1", "Summer Music Festival 2025", none, none, none, none, none,
        none⟩] : List EventItem).all fun ev =>
      !(strIn (pyStrip (pyLower "zzzz")) (pyLower ev.name)) &&
      !(strIn (pyLower ev.name) (pyStrip (pyLower "zzzz"))) &&
      decide (evScore (pyStrip (pyLower "zzzz")) ev ≤ mkRat 7 10)) = true ∧
    findEventByName "zzzz" [⟨"event-1", "Summer Music Festival 2025", none, none,
        none, none, none, none⟩] = none :=
  ⟨by decide,
    (c2_staged_fuzzy_resolution "zzzz" [⟨"event-1", "Summer Music Festival 2025",
      none, none, none, none, none, none⟩]).2 (by decide)⟩

/-- Claim C4: the Router lower-cases the message and tests the keyword
categories in order (ticket, then data, then geospatial), stopping at the
first hit: any message containing a ticket keyword is relayed to the ticket
agent no matter what other keywords appear, and a message with no keyword
from any set returns the static capability listing built from the
configured agents, of which there are exactly three. -/
theorem c4_router_first_match_priority (route : String → String → Envelope)
    (msg : String) :
    (hasKeyword ticketKeywords (pyLower msg) = true →
      orchestratorProcess route msg =
        relayReply "No response from Ticket Agent" (route "ticket" msg)) ∧
    (hasKeyword ticketKeywords (pyLower msg) = false →
      hasKeyword bigqueryKeywords (pyLower msg) = false →
      hasKeyword mapsKeywords (pyLower msg) = false →
      orchestratorProcess route msg = fallbackListing ∧
        remoteAgents.length = 3) := by
  constructor
  · intro h
    simp [orchestratorProcess, h]
  · intro h1 h2 h3
    refine ⟨?_, rfl⟩
    simp [orchestratorProcess, h1, h2, h3]

theorem c4_router_first_match_priority_witness :
    hasKeyword ticketKeywords (pyLower "Show me the data") = true ∧
    hasKeyword bigqueryKeywords (pyLower "Show me the data") = true ∧
    orchestratorProcess
        (fun k _ => { success := some true, response := some ("handled by " ++ k) })
        "Show me the data" =
      relayReply "No response from Ticket Agent"
        ((fun k (_ : String) =>
          ({ success := some true, response := some ("handled by " ++ k) } : Envelope))
          "ticket" "Show me the data") ∧
    hasKeyword ticketKeywords (pyLower "hello zzz") = false ∧
    (orchestratorProcess
        (fun k _ => { success := some true, response := some ("handled by " ++ k) })
        "hello zzz" = fallbackListing ∧
      remoteAgents.length = 3) :=
  ⟨by decide, by decide,
    (c4_router_first_match_priority
      (fun k _ => { success := some true, response := some ("handled by " ++ k) })
      "Show me the data").1 (by decide),
    by decide,
    (c4_router_first_match_priority
      (fun k _ => { success := some true, response := some ("handled by " ++ k) })
      "hello zzz").2 (by decide) (by decide) (by decide)⟩

/-- Claim C8: for every successful tool result whose payload carries an
events list, the formatter renders one fixed multi-line card per event,
joined with blank lines and capped at ten entries; the number of cards is
min 10 (length of the list), so fifteen events render exactly ten cards
(see the witness). -/
theorem c8_event_cards_capped_at_ten (dumps : Payload → String) (tr : Envelope)
    (evs : List EventItem) (hs : truthy tr.success = true)
    (he : payloadEvents tr = some evs) :
    formatToolResult dumps tr =
      "Here are the available events:\n\n" ++
        joinSep "\n\n" ((evs.take 10).map eventCardStr) ∧
    ((evs.take 10).map eventCardStr).length = min 10 evs.length := by
  have hlen : ((evs.take 10).map eventCardStr).length = min 10 evs.length := by
    simp [List.length_map, List.length_take]
  refine ⟨?_, hlen⟩
  unfold formatToolResult
  rw [if_pos hs]
  unfold payloadEvents at he
  cases hr : tr.result with
  | none =>
    rw [hr] at he
    simp only at he
    simp [he]
  | some v =>
    cases v with
    | str s =>
      rw [hr] at he
      simp at he
    | obj pl =>
      rw [hr] at he
      simp only at he
      simp [he]

theorem c8_event_cards_capped_at_ten_witness :
    truthy envFifteen.success = true ∧
    payloadEvents envFifteen = some (List.replicate 15 ({} : EventItem)) ∧
    (formatToolResult (fun _ => "") envFifteen =
      "Here are the available events:\n\n" ++
        joinSep "\n\n" (((List.replicate 15 ({} : EventItem)).take 10).map eventCardStr) ∧
      (((List.replicate 15 ({} : EventItem)).take 10).map eventCardStr).length =
        min 10 (List.replicate 15 ({} : EventItem)).length) ∧
    min 10 (List.replicate 15 ({} : EventItem)).length = 10 :=
  ⟨rfl, rfl,
    c8_event_cards_capped_at_ten (fun _ => "") _ _ rfl rfl, by decide⟩

/-- Claim C6, counterexample: for an unknown tool name both executors
return a dict holding only the error string; the success key is absent
(`none`), which is not the same dict as one with success set to false. -/
theorem c6_success_key_absent :
    (ticketExecuteTool mcpConst "bogus_tool" {}).1.error =
      some "Unknown tool: bogus_tool" ∧
    (ticketExecuteTool mcpConst "bogus_tool" {}).1.success = none ∧
    (orchExecuteTool (fun _ _ => {}) "bogus_tool" none).error =
      some "Unknown tool: bogus_tool" ∧
    (orchExecuteTool (fun _ _ => {}) "bogus_tool" none).success = none ∧
    (none : Option Bool) ≠ some false :=
  ⟨rfl, rfl, rfl, rfl, by decide⟩

/-- Claim C6, amended: for every tool name outside the dispatch table,
execute_tool of the ticket agent and of the orchestrator returns, without
raising, an envelope whose only set field is error = "Unknown tool: <name>";
the success key is absent, and the runtime formatter treats the missing key
as falsy and renders the reply "Error: Unknown tool: <name>". -/
theorem c6_unknown_tool_error_only_envelope (mcp : Mcp) (p : TParams)
    (route : String → String → Envelope) (req : Option String)
    (dumps : Payload → String) (name : String)
    (h1 : ¬ name ∈ ticketToolNames) (h2 : ¬ name ∈ orchToolNames) :
    ticketExecuteTool mcp name p =
      ({ error := some ("Unknown tool: " ++ name) }, []) ∧
    orchExecuteTool route name req = { error := some ("Unknown tool: " ++ name) } ∧
    formatToolResult dumps (ticketExecuteTool mcp name p).1 =
      "Error: " ++ ("Unknown tool: " ++ name) := by
  simp only [ticketToolNames, List.mem_cons, List.not_mem_nil, or_false,
    not_or] at h1
  simp only [orchToolNames, List.mem_cons, List.not_mem_nil, or_false,
    not_or] at h2
  obtain ⟨n1, n2, n3, n4, n5, n6, n7, n8, n9⟩ := h1
  obtain ⟨m1, m2, m3, m4⟩ := h2
  have e1 : ticketExecuteTool mcp name p =
      ({ error := some ("Unknown tool: " ++ name) }, []) := by
    simp [ticketExecuteTool, n1, n2, n3, n4, n5, n6, n7, n8, n9]
  refine ⟨e1, ?_, ?_⟩
  · simp [orchExecuteTool, m1, m2, m3, m4]
  · rw [e1]
    simp [formatToolResult, truthy]

theorem c6_unknown_tool_error_only_envelope_witness :
    ¬ "bogus_tool" ∈ ticketToolNames ∧
    ¬ "bogus_tool" ∈ orchToolNames ∧
    (ticketExecuteTool mcpConst "bogus_tool" {} =
      ({ error := some ("Unknown tool: " ++ "bogus_tool") }, []) ∧
    orchExecuteTool (fun _ _ => {}) "bogus_tool" none =
      { error := some ("Unknown tool: " ++ "bogus_tool") } ∧
    formatToolResult (fun _ => "") (ticketExecuteTool mcpConst "bogus_tool" {}).1 =
      "Error: " ++ ("Unknown tool: " ++ "bogus_tool")) :=
  ⟨by decide, by decide,
    c6_unknown_tool_error_only_envelope mcpConst {} (fun _ _ => {}) none
      (fun _ => "") "bogus_tool" (by decide) (by decide)⟩

/-- Claim C3, counterexample: the core holds no pending-payment slot.
Under an oracle whose purchase response reserves with pay-to address 0xAAA
but whose get_pending_payment endpoint reports 0xCCC, an argument-free
payment completion issued right after the purchase pays 0xCCC: the address
comes from a fresh get_pending_payment call to the companion service, not
from anything the core recorded at reservation time. -/
theorem c3_core_holds_no_slot :
    (ticketExecuteTool mcpA "purchase_tickets"
        { event_id := some "event-1" }).1.paymentIntent = some intentA ∧
    (intentA.blockchain.getD {}).paymentAddress = some "0xAAA" ∧
    (ticketExecuteTool mcpA "send_payment" {}).2 =
      [McpCall.getPendingPayment,
       McpCall.sendPayment (some "0xCCC") (some "5") ""] ∧
    (some "0xCCC" : Option String) ≠ some "0xAAA" :=
  ⟨rfl, rfl, rfl, by decide⟩

/-- Claim C3, amended: the single pending-payment reference lives in the
companion MCP service, not in the core.  The send_payment outcome depends
only on the get_pending_payment and send_payment endpoints of the service
(the core carries no state between calls), and with address and amount
missing the branch issues get_pending_payment and then pays the address and
amount of the intent that call returns. -/
theorem c3_pending_payment_lives_in_service (mcp mcp2 : Mcp) (p : TParams)
    (hpend : mcp.pending = mcp2.pending) (hsend : mcp.sendPay = mcp2.sendPay) :
    ticketExecuteTool mcp "send_payment" p =
      ticketExecuteTool mcp2 "send_payment" p ∧
    (∀ intent, truthy mcp.pending.success = true →
      mcp.pending.paymentIntent = some intent →
      (falsyS p.to_address || falsyS p.amount_usd) = true →
      (ticketExecuteTool mcp "send_payment" p).2 =
        [McpCall.getPendingPayment,
         McpCall.sendPayment ((intent.blockchain.getD {}).paymentAddress)
           (some (intent.amountStr.getD "0")) (p.memo.getD "")]) := by
  have hb : ticketExecuteTool mcp "send_payment" p = sendPaymentTool mcp p := rfl
  have hb2 : ticketExecuteTool mcp2 "send_payment" p = sendPaymentTool mcp2 p := rfl
  constructor
  · rw [hb, hb2]
    simp only [sendPaymentTool]
    rw [hpend, hsend]
  · intro intent hsucc hint hfals
    rw [hb]
    simp only [sendPaymentTool]
    rw [hfals, if_pos rfl, hsucc, hint]
    simp

theorem c3_pending_payment_lives_in_service_witness :
    mcpA.pending = mcpA.pending ∧ mcpA.sendPay = mcpA.sendPay ∧
    truthy mcpA.pending.success = true ∧
    mcpA.pending.paymentIntent = some intentC ∧
    (falsyS (({} : TParams).to_address) || falsyS (({} : TParams).amount_usd)) = true ∧
    (ticketExecuteTool mcpA "send_payment" {}).2 =
      [McpCall.getPendingPayment,
       McpCall.sendPayment ((intentC.blockchain.getD {}).paymentAddress)
         (some (intentC.amountStr.getD "0")) (({} : TParams).memo.getD "")] :=
  ⟨rfl, rfl, by decide, rfl, by decide,
    (c3_pending_payment_lives_in_service mcpA mcpA {} rfl rfl).2 intentC
      (by decide) rfl (by decide)⟩

/-- Claim C7: an argument-free payment completion auto-fills address and
amount from the pending payment reported by the companion service; when the
service reports none, the branch returns the no-pending message as a
successful (non-error) result and issues no send_payment call — hence a
repeat completion with no new reservation, the service now reporting
nothing pending, reports no pending payment instead of re-charging. -/
theorem c7_no_pending_no_charge (mcp : Mcp) (p : TParams)
    (hA : p.to_address = none) (_hB : p.amount_usd = none) :
    ((truthy mcp.pending.success && mcp.pending.paymentIntent.isSome) = false →
      ticketExecuteTool mcp "send_payment" p =
        ({ success := some true, result := some (ResultVal.str noPendingMsg) },
         [McpCall.getPendingPayment])) ∧
    (∀ intent, truthy mcp.pending.success = true →
      mcp.pending.paymentIntent = some intent →
      (ticketExecuteTool mcp "send_payment" p).2 =
        [McpCall.getPendingPayment,
         McpCall.sendPayment ((intent.blockchain.getD {}).paymentAddress)
           (some (intent.amountStr.getD "0")) (p.memo.getD "")]) := by
  have hb : ticketExecuteTool mcp "send_payment" p = sendPaymentTool mcp p := rfl
  have hf : (falsyS p.to_address || falsyS p.amount_usd) = true := by
    rw [hA]; rfl
  constructor
  · intro hno
    rw [hb]
    simp only [sendPaymentTool]
    rw [hf, if_pos rfl, hno]
    simp
  · intro intent hsucc hint
    rw [hb]
    simp only [sendPaymentTool]
    rw [hf, if_pos rfl, hsucc, hint]
    simp

theorem c7_no_pending_no_charge_witness :
    (({} : TParams).to_address = none ∧ ({} : TParams).amount_usd = none) ∧
    (truthy mcpConst.pending.success && mcpConst.pending.paymentIntent.isSome) =
      false ∧
    ticketExecuteTool mcpConst "send_payment" {} =
      ({ success := some true, result := some (ResultVal.str noPendingMsg) },
       [McpCall.getPendingPayment]) :=
  ⟨⟨rfl, rfl⟩, by decide,
    (c7_no_pending_no_charge mcpConst {} rfl rfl).1 (by decide)⟩

/-- Claim C9: a send_payment invocation supplying exactly one of
to_address and amount_usd takes the auto-fill path: the MCP call trace is
identical to that of the argument-free invocation, so the supplied value is
discarded and both values actually sent come from the pending payment; with
nothing pending the call reports the no-pending message and sends
nothing. -/
theorem c9_lone_payment_param_discarded (mcp : Mcp) (a : String)
    (m : Option String) :
    (ticketExecuteTool mcp "send_payment" { to_address := some a, memo := m }).2 =
      (ticketExecuteTool mcp "send_payment" { memo := m }).2 ∧
    (ticketExecuteTool mcp "send_payment" { amount_usd := some a, memo := m }).2 =
      (ticketExecuteTool mcp "send_payment" { memo := m }).2 ∧
    ((truthy mcp.pending.success && mcp.pending.paymentIntent.isSome) = false →
      (ticketExecuteTool mcp "send_payment" { to_address := some a, memo := m }).1 =
        { success := some true, result := some (ResultVal.str noPendingMsg) }) := by
  refine ⟨?_, ?_, ?_⟩
  · show (sendPaymentTool mcp { to_address := some a, memo := m }).2 =
      (sendPaymentTool mcp { memo := m }).2
    simp only [sendPaymentTool, falsyS, Bool.or_true]
    cases hc : (truthy mcp.pending.success && mcp.pending.paymentIntent.isSome) <;>
      simp [hc]
  · show (sendPaymentTool mcp { amount_usd := some a, memo := m }).2 =
      (sendPaymentTool mcp { memo := m }).2
    simp only [sendPaymentTool, falsyS, Bool.true_or, Bool.or_true]
    cases hc : (truthy mcp.pending.success && mcp.pending.paymentIntent.isSome) <;>
      simp [hc]
  · intro hno
    show (sendPaymentTool mcp { to_address := some a, memo := m }).1 = _
    simp only [sendPaymentTool, falsyS, Bool.or_true]
    rw [hno]
    simp

theorem c9_lone_payment_param_discarded_witness :
    (truthy mcpConst.pending.success && mcpConst.pending.paymentIntent.isSome) =
      false ∧
    (ticketExecuteTool mcpConst "send_payment"
        { to_address := some "0xDDD", memo := none }).2 =
      (ticketExecuteTool mcpConst "send_payment" { memo := none }).2 ∧
    (ticketExecuteTool mcpConst "send_payment"
        { to_address := some "0xDDD", memo := none }).1 =
      { success := some true, result := some (ResultVal.str noPendingMsg) } :=
  ⟨by decide,
    (c9_lone_payment_param_discarded mcpConst "0xDDD" none).1,
    (c9_lone_payment_param_discarded mcpConst "0xDDD" none).2.2 (by decide)⟩

/-- Claim C10: in the old support-ticket variant every create_ticket
invocation fails inside the handler — uuid is referenced but never
imported — and every other tool that touches the ticket store fails on the
never-initialized tickets attribute; execute_tool converts each raised
fault to an error envelope, and the store stays uninitialized, so no ticket
is ever stored. -/
theorem c10_old_variant_always_errors (u n tid : String) (p : OldParams) :
    oldExecuteTool u n "create_ticket" p none =
      ({ error := some "name \x27uuid\x27 is not defined" }, none) ∧
    oldExecuteTool u n "update_ticket" { p with ticket_id := some tid } none =
      ({ error := some "\x27TicketAgent\x27 object has no attribute \x27tickets\x27" },
       none) ∧
    oldExecuteTool u n "get_ticket" { p with ticket_id := some tid } none =
      ({ error := some "\x27TicketAgent\x27 object has no attribute \x27tickets\x27" },
       none) ∧
    oldExecuteTool u n "search_tickets" p none =
      ({ error := some "\x27TicketAgent\x27 object has no attribute \x27tickets\x27" },
       none) ∧
    oldExecuteTool u n "list_all_tickets" p none =
      ({ error := some "\x27TicketAgent\x27 object has no attribute \x27tickets\x27" },
       none) :=
  ⟨rfl, rfl, rfl, rfl, rfl⟩
